import Mathlib

/-!
# Login-System-Express-Sessions

A shallow embedding of the route handlers of `index.js` and of the user schema of
`models/User.js`.  Every handler is a function from the state the request sees (the
user collection and the session record of the caller) and the request body to an
`Outcome`: the reply that is sent, the error that leaves the handler (if any), the
session record and the user collection after the request, and the calls that were
made on `UserModel`.

The libraries the handlers call are not part of the repository.  They enter as follows.
* bcryptjs: the structure `Bcrypt` (hash and compare are parameters).
* mongoose: `findOne`, `save`, `updateOne` below act on a list of documents; a call that
  the driver rejects is given by the `Env` of the request.
* express-session: the session record of the caller is an `Option Session`;
  `req.session.destroy` removes the record.
-/

namespace LoginSystem

/-! ## Values -/

/-- A value read out of `req.body`.  With `express.urlencoded(extended: false)` a field of
the body is a string, an array of strings (a repeated key) or absent. -/
inductive JSVal where
  | undefined
  | str (s : String)
  | arr (items : List String)
  deriving DecidableEq, Repr

/-- The `length` of a JavaScript string counts UTF-16 code units: a character outside the
basic plane counts twice. -/
def utf16Length (s : String) : Nat :=
  (s.toList.map (fun c => if 65536 ≤ c.toNat then 2 else 1)).sum

/-- The test `imgData.startsWith('data:image/')` on a string. -/
def startsWithDataImage (imgData : String) : Bool :=
  "data:image/".toList.isPrefixOf imgData.toList

/-- JavaScript truthiness of a body field. -/
def JSVal.truthy : JSVal → Bool
  | .undefined => false
  | .str s => s != ""
  | .arr _ => true

/-- The operator `a !== b` on two values read from two different fields of the body:
strings compare by content, two arrays are two different objects. -/
def JSVal.strictNe : JSVal → JSVal → Bool
  | .undefined, .undefined => false
  | .str a, .str b => a != b
  | _, _ => true

/-- The property `length` of a value; reading it from `undefined` throws. -/
def JSVal.length? : JSVal → Option Nat
  | .undefined => none
  | .str s => some (utf16Length s)
  | .arr items => some items.length

/-- String conversion as done by a template literal. -/
def JSVal.toStr : JSVal → String
  | .undefined => "undefined"
  | .str s => s
  | .arr items => ",".intercalate items

/-- The request body after the two body parsers: an object of fields (the urlencoded
parser, or the empty object when no parser applied) or a string (`express.text`). -/
inductive Body where
  | form (fields : List (String × JSVal))
  | text (s : String)
  deriving DecidableEq, Repr

/-- Property access `req.body.name`; a string body has none of the field names. -/
def Body.field (b : Body) (name : String) : JSVal :=
  match b with
  | .form fields => (fields.lookup name).getD .undefined
  | .text _ => .undefined

/-- An error value (exception or rejected promise). -/
structure JSError where
  name : String
  message : String
  deriving DecidableEq, Repr

def castError (path : String) : JSError :=
  { name := "CastError", message := "Cast to string failed at path " ++ path }

def requiredError (path : String) : JSError :=
  { name := "ValidationError", message := "Path " ++ path ++ " is required." }

def duplicateKeyError : JSError :=
  { name := "MongoError", message := "E11000 duplicate key error" }

def typeError (message : String) : JSError :=
  { name := "TypeError", message := message }

def illegalArguments : JSError :=
  { name := "Error", message := "Illegal arguments" }

/-! ## models/User.js -/

/-- A document of the collection `Users` (userSchema). -/
structure User where
  username : String
  hashed_password : String
  status : String
  profile_pic : Option String
  deriving DecidableEq, Repr

/-- The document `new UserModel(username, hashed_password)`: `status` takes its default,
`profile_pic` is absent. -/
def newUser (username hashed_password : String) : User :=
  { username := username, hashed_password := hashed_password, status := "",
    profile_pic := none }

/-- The schema invariant of a stored collection: `username` is unique and required,
`hashed_password` is required (a required string is not empty). -/
def StoreWf (users : List User) : Prop :=
  (users.map (fun x => x.username)).Nodup ∧
    ∀ x ∈ users, x.username ≠ "" ∧ x.hashed_password ≠ ""

instance (users : List User) : Decidable (StoreWf users) := by
  unfold StoreWf
  infer_instance

/-- The calls a handler makes on `UserModel`. -/
inductive StoreCall where
  | findOne (username : JSVal)
  | save (username : String)
  | updateOne (username : Option String)
  deriving DecidableEq, Repr

/-- What the surroundings of one request decide: whether the driver rejects a call
(`some e`: the call rejects with `e`) and the salt that `genSaltSync` draws. -/
structure Env where
  findFault : Option JSError
  saveFault : Option JSError
  updateFault : Option JSError
  salt : String
  deriving DecidableEq, Repr

/-- The query `UserModel.findOne(username: key).exec()`.  An array does not cast to the
string path, `undefined` matches no document. -/
def findOne (fault : Option JSError) (users : List User) (key : JSVal) :
    Except JSError (Option User) :=
  match key with
  | .arr _ => .error (castError "username")
  | .undefined =>
    match fault with
    | some e => .error e
    | none => .ok none
  | .str u =>
    match fault with
    | some e => .error e
    | none => .ok (users.find? (fun x => x.username == u))

/-- The call `new UserModel(doc).save()`: the required validators of the schema, then the
insert, which the unique index on `username` can refuse. -/
def save (fault : Option JSError) (users : List User) (doc : User) :
    Except JSError (List User) :=
  if doc.username = "" then .error (requiredError "username")
  else if doc.hashed_password = "" then .error (requiredError "hashed_password")
  else
    match fault with
    | some e => .error e
    | none =>
      if users.any (fun x => x.username == doc.username) then .error duplicateKeyError
      else .ok (users ++ [doc])

/-- Replace the first document that satisfies `p`. -/
def replaceFirst (p : User → Bool) (f : User → User) : List User → List User
  | [] => []
  | x :: xs => if p x then f x :: xs else x :: replaceFirst p f xs

/-- The result of `updateOne`: the field `nModified` and the collection afterwards. -/
structure UpdateResult where
  nModified : Nat
  users : List User
  deriving DecidableEq, Repr

/-- The call `UserModel.updateOne(username: key, $set: ...)`, where `f` applies the `$set`.
The first matching document is updated; `nModified` counts a document only when the
update changed it. -/
def updateOne (fault : Option JSError) (users : List User) (key : Option String)
    (f : User → User) : Except JSError UpdateResult :=
  match fault with
  | some e => .error e
  | none =>
    match key with
    | none => .ok { nModified := 0, users := users }
    | some u =>
      match users.find? (fun x => x.username == u) with
      | none => .ok { nModified := 0, users := users }
      | some x =>
        if f x = x then .ok { nModified := 0, users := users }
        else .ok { nModified := 1, users := replaceFirst (fun y => y.username == u) f users }

/-! ## bcryptjs -/

/-- The hash primitive: `hashSync password salt` and `compareSync password hash` on
strings. -/
structure Bcrypt where
  hashSync : String → String → String
  compareSync : String → String → Bool

/-- The call `bcrypt.hashSync(s, salt)`: anything but a string is an illegal argument. -/
def Bcrypt.hashValue (bc : Bcrypt) (s : JSVal) (salt : String) : Except JSError String :=
  match s with
  | .str p => .ok (bc.hashSync p salt)
  | _ => .error illegalArguments

/-- The call `bcrypt.compareSync(s, hash)`: anything but a string is an illegal
argument. -/
def Bcrypt.compareValue (bc : Bcrypt) (s : JSVal) (hash : String) : Except JSError Bool :=
  match s with
  | .str p => .ok (bc.compareSync p hash)
  | _ => .error illegalArguments

/-! ## Session, replies, outcomes -/

/-- The attributes index.js keeps in `req.session`. -/
structure Session where
  isAuth : Bool
  username : Option String
  deriving DecidableEq, Repr

/-- What a handler sends.  `status` is the code given to `res.status` (200 when the
handler does not call it). -/
inductive Reply where
  | jsonError (status : Nat) (error : String)
  | jsonCaught (status : Nat) (error : JSError)
  | jsonSuccess (status : Nat) (newStatus : Option String)
  | render (status : Nat) (view : String) (locals : List (String × String))
  | redirect (status : Nat) (url : String)
  deriving DecidableEq, Repr

/-- The state a request sees: the user collection and the session record of the caller
(`none`: no record, a fresh `req.session` without attributes). -/
structure Server where
  users : List User
  session : Option Session
  deriving DecidableEq, Repr

/-- The result of running a handler. `reply` is what is sent to the client, `escaped` the
error thrown out of the handler, `session` and `users` the state afterwards, `calls` the
calls made on `UserModel`, in order. -/
structure Outcome where
  reply : Option Reply
  escaped : Option JSError
  session : Option Session
  users : List User
  calls : List StoreCall
  deriving DecidableEq, Repr

/-- The state the next request of the same caller sees. -/
def Outcome.server (o : Outcome) : Server :=
  { users := o.users, session := o.session }

/-- The test `req.session.isAuth`. -/
def Server.isAuth (sv : Server) : Bool :=
  match sv.session with
  | some s => s.isAuth
  | none => false

/-- The attribute `req.session.username`. -/
def Server.sessionUsername (sv : Server) : Option String :=
  match sv.session with
  | some s => s.username
  | none => none

/-- The attribute `req.session.username` as a query value. -/
def Server.sessionKey (sv : Server) : JSVal :=
  match sv.sessionUsername with
  | some u => .str u
  | none => .undefined

/-- Return a reply; state untouched. -/
def Server.send (sv : Server) (r : Reply) (calls : List StoreCall) : Outcome :=
  { reply := some r, escaped := none, session := sv.session, users := sv.users,
    calls := calls }

/-- An error leaves the handler before anything was sent; state untouched. -/
def Server.throwOut (sv : Server) (e : JSError) (calls : List StoreCall) : Outcome :=
  { reply := none, escaped := some e, session := sv.session, users := sv.users,
    calls := calls }

/-! ## index.js: the handlers -/

/-- The handler `app.post('/login')`. -/
def postLogin (bc : Bcrypt) (env : Env) (sv : Server) (body : Body) : Outcome :=
  let login_username := body.field "login_username"
  let login_password := body.field "login_password"
  -- Incomplete data sent
  if !(login_username.truthy && login_password.truthy) then
    sv.send (.jsonError 200 "Request body incomplete. Please try again") []
  else
    match findOne env.findFault sv.users login_username with
    | .error e => sv.send (.jsonCaught 200 e) [.findOne login_username]
    | .ok none =>
      -- No user with such username exists
      sv.send (.render 200 "login"
        [("messageDanger", "No user with username \"" ++ login_username.toStr ++ "\" exists!")])
        [.findOne login_username]
    | .ok (some searchUser) =>
      match bc.compareValue login_password searchUser.hashed_password with
      | .error e => sv.throwOut e [.findOne login_username]
      | .ok false =>
        sv.send (.render 200 "login" [("messageDanger", "Incorrect password")])
          [.findOne login_username]
      | .ok true =>
        -- Successful login! Set session
        { reply := some (.redirect 200 "/profile"),
          escaped := none,
          session := some { isAuth := true, username := some searchUser.username },
          users := sv.users,
          calls := [.findOne login_username] }

/-- The handler `app.post('/register')`.  The lookup is inside try/catch, the hashing and
the `save()` are not. -/
def postRegister (bc : Bcrypt) (env : Env) (sv : Server) (body : Body) : Outcome :=
  let register_username := body.field "register_username"
  let register_password := body.field "register_password"
  let register_confirm_password := body.field "register_confirm_password"
  -- Incomplete data sent
  if !(register_username.truthy && register_password.truthy
      && register_confirm_password.truthy) then
    sv.send (.jsonError 200 "Request body incomplete.") []
  -- Validation of the submission data
  else if register_password.strictNe register_confirm_password then
    sv.send (.jsonError 200 "Password and Confirm Password Does not Match!") []
  else
    -- Check if the user already exists
    match findOne env.findFault sv.users register_username with
    | .error e => sv.send (.jsonCaught 200 e) [.findOne register_username]
    | .ok (some _) =>
      sv.send (.jsonError 200 ("Username " ++ register_username.toStr ++ " is already taken!"))
        [.findOne register_username]
    | .ok none =>
      -- Checks passed. Store the newly registered user into the database.
      match bc.hashValue register_password env.salt with
      | .error e => sv.throwOut e [.findOne register_username]
      | .ok hashed =>
        let doc := newUser register_username.toStr hashed
        match save env.saveFault sv.users doc with
        | .error e =>
          sv.throwOut e [.findOne register_username, .save register_username.toStr]
        | .ok users =>
          { reply := some (.jsonSuccess 200 none),
            escaped := none,
            session := sv.session,
            users := users,
            calls := [.findOne register_username, .save register_username.toStr] }

/-- The handler `app.get('/profile')`.  When the lookup finds nobody the session is
destroyed and the callback of `destroy` sends the redirect, but the handler does not
return there: it goes on to read `searchUser.profile_pic` of `null`. -/
def getProfile (env : Env) (sv : Server) : Outcome :=
  if !sv.isAuth then
    sv.send (.redirect 401 "/login?messageDanger=Please+login+into+your+profile+first!") []
  else
    -- Obtain the user information from the database
    match findOne env.findFault sv.users sv.sessionKey with
    | .error e => sv.send (.jsonCaught 500 e) [.findOne sv.sessionKey]
    | .ok searchUser =>
      -- if (!searchUser) req.session.destroy(() => res.status(404).redirect(...))
      let session := if searchUser.isNone then none else sv.session
      let fromCallback : Option Reply :=
        if searchUser.isNone then
          some (.redirect 404 "/login?messageDanger=404+Error+User+cannot+be+found")
        else none
      -- let avatarUrl = searchUser.profile_pic ? ... : ...
      match searchUser with
      | none =>
        { reply := fromCallback,
          escaped := some (typeError "Cannot read property profile_pic of null"),
          session := session,
          users := sv.users,
          calls := [.findOne sv.sessionKey] }
      | some user =>
        let avatarUrl :=
          match user.profile_pic with
          | some pic => if pic != "" then pic else "/public/image/user.svg"
          | none => "/public/image/user.svg"
        { reply := some (.render 200 "profile"
            [("username", user.username), ("status", user.status),
             ("profileAvatar", avatarUrl)]),
          escaped := none,
          session := session,
          users := sv.users,
          calls := [.findOne sv.sessionKey] }

/-- The handler `app.post('/profile/changeStatus')`. -/
def postChangeStatus (env : Env) (sv : Server) (body : Body) : Outcome :=
  if !sv.isAuth then
    sv.send (.jsonError 401 "Unauthorized. Please log in to fix this problem") []
  else
    let profile__chgStatus := body.field "profile__chgStatus"
    match profile__chgStatus.length? with
    | none => sv.throwOut (typeError "Cannot read property length of undefined") []
    | some len =>
      if len > 500 then
        sv.send (.jsonError 400 "New status too long. Do not exceed 500 characters") []
      else
        let call := StoreCall.updateOne sv.sessionUsername
        -- the value of $set is cast to the string path `status`
        let updateQuery :=
          match profile__chgStatus with
          | .str s =>
            updateOne env.updateFault sv.users sv.sessionUsername
              (fun x => { x with status := s })
          | _ => .error (castError "status")
        match updateQuery with
        | .error e => sv.send (.jsonCaught 500 e) [call]
        | .ok result =>
          -- Somehow no body are updated. Return error
          if result.nModified == 0 then
            { reply := some (.jsonError 500
                ("Unable to update status for user " ++ sv.sessionKey.toStr)),
              escaped := none, session := sv.session, users := result.users,
              calls := [call] }
          else
            { reply := some (.jsonSuccess 200 (some profile__chgStatus.toStr)),
              escaped := none, session := sv.session, users := result.users,
              calls := [call] }

/-- The handler `app.post('/profile/changeProfilePic')`.  `imgData` is the whole body;
`startsWith` is a method of strings only. -/
def postChangeProfilePic (env : Env) (sv : Server) (body : Body) : Outcome :=
  if !sv.isAuth then
    sv.send (.jsonError 401 "Unauthorized. Please log in to fix this problem") []
  else
    match body with
    | .form _ => sv.throwOut (typeError "imgData.startsWith is not a function") []
    | .text imgData =>
      -- Data Base64 url is not valid image
      if !(startsWithDataImage imgData) then
        sv.send (.jsonError 400 "New profile picture is not a valid image!") []
      -- Data Base64 url is too large
      else if utf16Length imgData > 5242880 then
        sv.send (.jsonError 400 "Image too large! Make sure it is less than ~5MB") []
      else
        let call := StoreCall.updateOne sv.sessionUsername
        match updateOne env.updateFault sv.users sv.sessionUsername
            (fun x => { x with profile_pic := some imgData }) with
        | .error e => sv.send (.jsonCaught 500 e) [call]
        | .ok result =>
          -- Somehow no body are updated. Return error
          if result.nModified == 0 then
            { reply := some (.jsonError 500
                ("Unable to change profile picture for user " ++ sv.sessionKey.toStr)),
              escaped := none, session := sv.session, users := result.users,
              calls := [call] }
          else
            { reply := some (.jsonSuccess 200 none),
              escaped := none, session := sv.session, users := result.users,
              calls := [call] }

/-- The handler `app.get('/logout')`: the session record is destroyed and the callback of
`destroy` sends the redirect. -/
def getLogout (sv : Server) : Outcome :=
  { reply := some (.redirect 200 "/login?messageSuccess=Successfully+Logged+Out!"),
    escaped := none,
    session := none,
    users := sv.users,
    calls := [] }

/-! ## Concrete data for the worked examples -/

/-- A hash primitive small enough to evaluate: the hash is the password behind a fixed
marker. -/
def demoBcrypt : Bcrypt :=
  { hashSync := fun p _ => "$2a$" ++ p,
    compareSync := fun p h => h == "$2a$" ++ p }

def quietEnv : Env :=
  { findFault := none, saveFault := none, updateFault := none, salt := "salt" }

def alice : User :=
  { username := "alice", hashed_password := "$2a$Secret123", status := "", profile_pic := none }

def anonymous : Server := { users := [alice], session := none }

def loggedIn : Server :=
  { users := [alice], session := some { isAuth := true, username := some "alice" } }

/-- An authenticated session whose user is gone from the collection. -/
def stale : Server :=
  { users := [], session := some { isAuth := true, username := some "ghost" } }

/-- A status of 501 characters. -/
def longStatus : String := String.mk (List.replicate 501 (Char.ofNat 97))

/-- A status of exactly 500 characters. -/
def fullStatus : String := String.mk (List.replicate 500 (Char.ofNat 97))

/-- An environment in which the insert is refused by the unique index (another request
inserted the same username after the lookup). -/
def saveRejected : Env :=
  { findFault := none, saveFault := some duplicateKeyError, updateFault := none,
    salt := "salt" }

/-! ## Lemmas on the store -/

theorem strictNe_of_ne (a b : JSVal) (h : a ≠ b) : a.strictNe b = true := by
  cases a <;> cases b <;> simp_all [JSVal.strictNe]

theorem find_none_of_fresh (users : List User) (u : String)
    (h : ∀ x ∈ users, x.username ≠ u) :
    users.find? (fun x => x.username == u) = none := by
  rw [List.find?_eq_none]
  intro x hx
  simpa using h x hx

theorem any_false_of_fresh (users : List User) (u : String)
    (h : ∀ x ∈ users, x.username ≠ u) :
    users.any (fun x => x.username == u) = false := by
  rw [List.any_eq_false]
  intro x hx
  simpa using h x hx

theorem find_some_of_mem (users : List User) (u : String)
    (h : ∃ x ∈ users, x.username = u) :
    ∃ y, users.find? (fun x => x.username == u) = some y := by
  have hs : (users.find? (fun x => x.username == u)).isSome = true := by
    rw [List.find?_isSome]
    obtain ⟨x, hx, hxu⟩ := h
    exact ⟨x, hx, by simp [hxu]⟩
  exact Option.isSome_iff_exists.mp hs

theorem find_eq_of_mem_nodup (users : List User) (usr : User)
    (hnodup : (users.map (fun x => x.username)).Nodup) (hmem : usr ∈ users) :
    users.find? (fun x => x.username == usr.username) = some usr := by
  induction users with
  | nil => cases hmem
  | cons x xs ih =>
    rw [List.map_cons, List.nodup_cons] at hnodup
    rcases List.mem_cons.mp hmem with rfl | hxs
    · simp [List.find?_cons]
    · have hne : x.username ≠ usr.username := by
        intro heq
        exact hnodup.1 (heq ▸ List.mem_map_of_mem (fun y => y.username) hxs)
      simp [List.find?_cons, hne, ih hnodup.2 hxs]

theorem postLogin_found (bc : Bcrypt) (env : Env) (sv : Server) (body : Body)
    (u p : String) (usr : User) (hu : u ≠ "") (hp : p ≠ "")
    (hfault : env.findFault = none)
    (hlu : body.field "login_username" = .str u)
    (hlp : body.field "login_password" = .str p)
    (hfound : sv.users.find? (fun x => x.username == u) = some usr) :
    postLogin bc env sv body =
      if bc.compareSync p usr.hashed_password then
        { reply := some (.redirect 200 "/profile"), escaped := none,
          session := some { isAuth := true, username := some usr.username },
          users := sv.users, calls := [.findOne (.str u)] }
      else
        sv.send (.render 200 "login" [("messageDanger", "Incorrect password")])
          [.findOne (.str u)] := by
  cases hc : bc.compareSync p usr.hashed_password <;>
    simp [postLogin, hlu, hlp, JSVal.truthy, hu, hp, findOne, hfault, hfound,
      Bcrypt.compareValue, hc]

theorem updateOne_no_match (users : List User) (key : Option String) (f : User → User)
    (h : ∀ u, key = some u → ∀ x ∈ users, x.username ≠ u) :
    updateOne none users key f = .ok { nModified := 0, users := users } := by
  cases key with
  | none => rfl
  | some u => simp [updateOne, find_none_of_fresh users u (h u rfl)]

theorem getProfile_stale (env : Env) (sv : Server) (hauth : sv.isAuth = true)
    (hfault : env.findFault = none)
    (hstale : ∀ u, sv.sessionUsername = some u → ∀ x ∈ sv.users, x.username ≠ u) :
    getProfile env sv =
      { reply := some (.redirect 404 "/login?messageDanger=404+Error+User+cannot+be+found"),
        escaped := some (typeError "Cannot read property profile_pic of null"),
        session := none, users := sv.users, calls := [.findOne sv.sessionKey] } := by
  cases hk : sv.sessionUsername with
  | none => simp [getProfile, hauth, Server.sessionKey, hk, findOne, hfault]
  | some u =>
    simp [getProfile, hauth, Server.sessionKey, hk, findOne, hfault,
      find_none_of_fresh sv.users u (hstale u hk)]

theorem utf16Length_replicate (n : Nat) :
    utf16Length (String.mk (List.replicate n (Char.ofNat 97))) = n := by
  have h : (if 65536 ≤ (Char.ofNat 97).toNat then 2 else 1) = 1 := by decide
  simp [utf16Length, List.map_replicate, List.sum_replicate, h]

/-! ## Register and login -/

/-- C1. Register then login round trip.  For a non-empty username `u` that no stored user
has and a non-empty password `p`, when the store calls are not rejected and the hash
primitive accepts its own hashes (and, as bcrypt does, never returns the empty string),
POST /register with `(u, p, p)` answers success and appends exactly one user `u` to the
collection, and POST /login with `(u, p)` on the resulting state answers with the redirect
to the profile and leaves the session with `isAuth = true` and `username = u`.  The
session before the two requests is arbitrary, in particular anonymous. -/
theorem register_then_login (bc : Bcrypt) (env1 env2 : Env) (sv : Server)
    (regBody loginBody : Body) (u p : String)
    (hcompare : ∀ q salt, bc.compareSync q (bc.hashSync q salt) = true)
    (hhash : ∀ q salt, bc.hashSync q salt ≠ "")
    (hu : u ≠ "") (hp : p ≠ "")
    (hfresh : ∀ x ∈ sv.users, x.username ≠ u)
    (hfind1 : env1.findFault = none) (hsave1 : env1.saveFault = none)
    (hfind2 : env2.findFault = none)
    (hru : regBody.field "register_username" = .str u)
    (hrp : regBody.field "register_password" = .str p)
    (hrc : regBody.field "register_confirm_password" = .str p)
    (hlu : loginBody.field "login_username" = .str u)
    (hlp : loginBody.field "login_password" = .str p) :
    (postRegister bc env1 sv regBody).reply = some (.jsonSuccess 200 none) ∧
    (postRegister bc env1 sv regBody).escaped = none ∧
    (postRegister bc env1 sv regBody).session = sv.session ∧
    (postRegister bc env1 sv regBody).users =
      sv.users ++ [newUser u (bc.hashSync p env1.salt)] ∧
    (postLogin bc env2 (postRegister bc env1 sv regBody).server loginBody).reply =
      some (.redirect 200 "/profile") ∧
    (postLogin bc env2 (postRegister bc env1 sv regBody).server loginBody).escaped = none ∧
    (postLogin bc env2 (postRegister bc env1 sv regBody).server loginBody).session =
      some { isAuth := true, username := some u } := by
  have hreg : postRegister bc env1 sv regBody =
      { reply := some (.jsonSuccess 200 none), escaped := none, session := sv.session,
        users := sv.users ++ [newUser u (bc.hashSync p env1.salt)],
        calls := [.findOne (.str u), .save u] } := by
    simp [postRegister, hru, hrp, hrc, JSVal.truthy, JSVal.strictNe, hu, hp, findOne, hfind1,
      find_none_of_fresh sv.users u hfresh, Bcrypt.hashValue, save, JSVal.toStr, hhash, hsave1,
      newUser,
      any_false_of_fresh sv.users u hfresh]
  have hfound : (sv.users ++ [newUser u (bc.hashSync p env1.salt)]).find?
      (fun x => x.username == u) = some (newUser u (bc.hashSync p env1.salt)) := by
    simp [List.find?_append, find_none_of_fresh sv.users u hfresh, newUser]
  rw [hreg]
  have hlogin := postLogin_found bc env2
    (Outcome.server { reply := some (.jsonSuccess 200 none), escaped := none,
                      session := sv.session,
                      users := sv.users ++ [newUser u (bc.hashSync p env1.salt)],
                      calls := [.findOne (.str u), .save u] })
    loginBody u p (newUser u (bc.hashSync p env1.salt)) hu hp hfind2 hlu hlp hfound
  have hc : bc.compareSync p (newUser u (bc.hashSync p env1.salt)).hashed_password = true :=
    hcompare p env1.salt
  rw [hc] at hlogin
  rw [hlogin]
  exact ⟨rfl, rfl, rfl, rfl, rfl, rfl, rfl⟩

/-- Witness of C1 with the demonstration primitive: bob registers next to alice and logs
in. -/
theorem register_then_login_witness :
    (postRegister demoBcrypt quietEnv anonymous
      (.form [("register_username", .str "bob"), ("register_password", .str "pw"),
              ("register_confirm_password", .str "pw")])).users.length = 2 ∧
    (postLogin demoBcrypt quietEnv
      (postRegister demoBcrypt quietEnv anonymous
        (.form [("register_username", .str "bob"), ("register_password", .str "pw"),
                ("register_confirm_password", .str "pw")])).server
      (.form [("login_username", .str "bob"), ("login_password", .str "pw")])).session =
      some { isAuth := true, username := some "bob" } := by
  have h := register_then_login demoBcrypt quietEnv quietEnv anonymous
    (.form [("register_username", .str "bob"), ("register_password", .str "pw"),
            ("register_confirm_password", .str "pw")])
    (.form [("login_username", .str "bob"), ("login_password", .str "pw")]) "bob" "pw"
    (by intro q salt; simp [demoBcrypt])
    (by
      intro q salt hq
      have hlen := congrArg String.length hq
      simp [demoBcrypt] at hlen
      exact absurd hlen.1 (by decide))
    (by decide) (by decide) (by decide) rfl rfl rfl rfl rfl rfl rfl rfl
  refine ⟨?_, h.2.2.2.2.2.2⟩
  rw [h.2.2.2.1]
  rfl

/-- C2, as amended.  For every session that is not authenticated, every user of a
well-formed collection and every submitted password string that the comparison with the
stored hash rejects, POST /login leaves the session as it was (not authenticated, and
without a username when it had none), lets no error out and leaves the collection
unchanged; when moreover the password is not empty and the lookup is not rejected, the
reply is the login page with the message "Incorrect password". -/
theorem login_wrong_password (bc : Bcrypt) (env : Env) (sv : Server) (body : Body)
    (usr : User) (p : String)
    (hwf : StoreWf sv.users) (hmem : usr ∈ sv.users) (hanon : sv.isAuth = false)
    (hlu : body.field "login_username" = .str usr.username)
    (hlp : body.field "login_password" = .str p)
    (hwrong : bc.compareSync p usr.hashed_password = false) :
    ((postLogin bc env sv body).session = sv.session ∧
      (postLogin bc env sv body).server.isAuth = false ∧
      (postLogin bc env sv body).server.sessionUsername = sv.sessionUsername ∧
      (postLogin bc env sv body).escaped = none ∧
      (postLogin bc env sv body).users = sv.users) ∧
    (p ≠ "" → env.findFault = none →
      (postLogin bc env sv body).reply =
        some (.render 200 "login" [("messageDanger", "Incorrect password")])) := by
  have hu : usr.username ≠ "" := (hwf.2 usr hmem).1
  have hfound := find_eq_of_mem_nodup sv.users usr hwf.1 hmem
  by_cases hp : p = ""
  · subst hp
    have hrun : postLogin bc env sv body =
        sv.send (.jsonError 200 "Request body incomplete. Please try again") [] := by
      simp [postLogin, hlu, hlp, JSVal.truthy]
    rw [hrun]
    exact ⟨⟨rfl, hanon, rfl, rfl, rfl⟩, fun h => absurd rfl h⟩
  · cases hfault : env.findFault with
    | some e =>
      have hrun : postLogin bc env sv body =
          sv.send (.jsonCaught 200 e) [.findOne (.str usr.username)] := by
        simp [postLogin, hlu, hlp, JSVal.truthy, hu, hp, findOne, hfault]
      rw [hrun]
      exact ⟨⟨rfl, hanon, rfl, rfl, rfl⟩, fun _ h => by cases h⟩
    | none =>
      have hrun := postLogin_found bc env sv body usr.username p usr hu hp hfault hlu hlp hfound
      rw [hwrong] at hrun
      rw [hrun]
      exact ⟨⟨rfl, hanon, rfl, rfl, rfl⟩, fun _ _ => rfl⟩

/-- Witness of C2 as amended: a wrong password for alice on an anonymous session. -/
theorem login_wrong_password_witness :
    (postLogin demoBcrypt quietEnv anonymous
      (.form [("login_username", .str "alice"), ("login_password", .str "guess")])).session
      = none ∧
    (postLogin demoBcrypt quietEnv anonymous
      (.form [("login_username", .str "alice"), ("login_password", .str "guess")])).reply
      = some (.render 200 "login" [("messageDanger", "Incorrect password")]) := by
  have h := login_wrong_password demoBcrypt quietEnv anonymous
    (.form [("login_username", .str "alice"), ("login_password", .str "guess")])
    alice "guess" (by decide) (by decide) rfl rfl rfl (by decide)
  exact ⟨h.1.1, h.2 (by decide) rfl⟩

/-- C2, counterexample.  With the empty password (which the comparison with the hash of
alice rejects) POST /login does not answer "Incorrect password": the reply is the JSON
error for an incomplete body. -/
theorem login_empty_password_reply :
    demoBcrypt.compareSync "" alice.hashed_password = false ∧
    anonymous.isAuth = false ∧
    (postLogin demoBcrypt quietEnv anonymous
      (.form [("login_username", .str "alice"), ("login_password", .str "")])).reply
      = some (.jsonError 200 "Request body incomplete. Please try again") ∧
    (postLogin demoBcrypt quietEnv anonymous
      (.form [("login_username", .str "alice"), ("login_password", .str "")])).reply
      ≠ some (.render 200 "login" [("messageDanger", "Incorrect password")]) := by
  decide

/-! ## Logout and the protected routes -/

/-- C3. After GET /logout, from any session state, the session record is destroyed, and
on that session GET /profile, POST /profile/changeStatus and POST /profile/changeProfilePic
are rejected as unauthorized (the redirect to the login page for the page route, the JSON
"Unauthorized" error with status 401 for the two API routes), for every request body,
every collection and every environment, with no call on the user model, no error leaving
the handler and the collection unchanged. -/
theorem protected_routes_after_logout (env : Env) (sv : Server) (users : List User)
    (body : Body) :
    (getLogout sv).session = none ∧
    getProfile env { users := users, session := (getLogout sv).session } =
      { reply := some
          (.redirect 401 "/login?messageDanger=Please+login+into+your+profile+first!"),
        escaped := none, session := none, users := users, calls := [] } ∧
    postChangeStatus env { users := users, session := (getLogout sv).session } body =
      { reply := some (.jsonError 401 "Unauthorized. Please log in to fix this problem"),
        escaped := none, session := none, users := users, calls := [] } ∧
    postChangeProfilePic env { users := users, session := (getLogout sv).session } body =
      { reply := some (.jsonError 401 "Unauthorized. Please log in to fix this problem"),
        escaped := none, session := none, users := users, calls := [] } := by
  refine ⟨rfl, ?_, ?_, ?_⟩
  · simp [getProfile, getLogout, Server.isAuth, Server.send]
  · simp [postChangeStatus, getLogout, Server.isAuth, Server.send]
  · simp [postChangeProfilePic, getLogout, Server.isAuth, Server.send]

/-- C4. The code at the failing input: an authenticated session whose user is gone.  GET
/profile destroys the session and the callback sends the 404 redirect, but the handler
does not stop there: it reads `profile_pic` of the missing user and a TypeError leaves
the handler.  A second GET /profile is rejected with the unauthorized redirect. -/
theorem profile_stale_session_runs_on :
    getProfile quietEnv stale =
      { reply := some (.redirect 404 "/login?messageDanger=404+Error+User+cannot+be+found"),
        escaped := some (typeError "Cannot read property profile_pic of null"),
        session := none, users := [], calls := [.findOne (.str "ghost")] } ∧
    getProfile quietEnv (getProfile quietEnv stale).server =
      { reply := some
          (.redirect 401 "/login?messageDanger=Please+login+into+your+profile+first!"),
        escaped := none, session := none, users := [], calls := [] } := by
  decide

/-- C5, as amended.  The two mutation handlers test only `isAuth`; they never look the
user up.  For every session with `isAuth = true` whose username matches no stored user,
when the update call is not rejected, POST /profile/changeStatus with a status string of
at most 500 characters and POST /profile/changeProfilePic with an image data URL of at
most 5242880 characters each make exactly one `updateOne` call, which modifies nothing,
answer with status 500 "Unable to ..." and leave the session and the collection as they
were. -/
theorem mutation_handlers_stale_session (env : Env) (sv : Server) (body : Body)
    (status img : String)
    (hauth : sv.isAuth = true)
    (hstale : ∀ u, sv.sessionUsername = some u → ∀ x ∈ sv.users, x.username ≠ u)
    (hfault : env.updateFault = none)
    (hstatus : body.field "profile__chgStatus" = .str status)
    (hlen : utf16Length status ≤ 500)
    (himg : startsWithDataImage img = true)
    (hsize : utf16Length img ≤ 5242880) :
    postChangeStatus env sv body =
      { reply := some
          (.jsonError 500 ("Unable to update status for user " ++ sv.sessionKey.toStr)),
        escaped := none, session := sv.session, users := sv.users,
        calls := [.updateOne sv.sessionUsername] } ∧
    postChangeProfilePic env sv (.text img) =
      { reply := some
          (.jsonError 500
            ("Unable to change profile picture for user " ++ sv.sessionKey.toStr)),
        escaped := none, session := sv.session, users := sv.users,
        calls := [.updateOne sv.sessionUsername] } := by
  constructor
  · simp [postChangeStatus, hauth, hstatus, JSVal.length?, Nat.not_lt.mpr hlen, hfault,
      updateOne_no_match sv.users sv.sessionUsername _ hstale]
  · simp [postChangeProfilePic, hauth, himg, Nat.not_lt.mpr hsize, hfault,
      updateOne_no_match sv.users sv.sessionUsername _ hstale]

/-- Witness of C5 as amended: the session of ghost on an empty collection. -/
theorem mutation_handlers_stale_session_witness :
    postChangeStatus quietEnv stale (.form [("profile__chgStatus", .str "hello")]) =
      { reply := some (.jsonError 500 "Unable to update status for user ghost"),
        escaped := none, session := some { isAuth := true, username := some "ghost" },
        users := [], calls := [.updateOne (some "ghost")] } ∧
    postChangeProfilePic quietEnv stale (.text "data:image/png;base64,AAAA") =
      { reply := some (.jsonError 500 "Unable to change profile picture for user ghost"),
        escaped := none, session := some { isAuth := true, username := some "ghost" },
        users := [], calls := [.updateOne (some "ghost")] } :=
  mutation_handlers_stale_session quietEnv stale
    (.form [("profile__chgStatus", .str "hello")]) "hello" "data:image/png;base64,AAAA"
    rfl (by decide) rfl rfl (by decide) (by decide) (by decide)

/-- C5, counterexample.  On the stale session of ghost, POST /profile/changeStatus and
POST /profile/changeProfilePic make no `findOne` call, do not destroy the session (it is
still authenticated afterwards) and attempt the update. -/
theorem mutation_handlers_keep_stale_session :
    stale.isAuth = true ∧
    (postChangeStatus quietEnv stale (.form [("profile__chgStatus", .str "hello")])).session
      ≠ none ∧
    (postChangeStatus quietEnv stale (.form [("profile__chgStatus", .str "hello")])).calls
      = [.updateOne (some "ghost")] ∧
    (postChangeStatus quietEnv stale
      (.form [("profile__chgStatus", .str "hello")])).server.isAuth = true ∧
    (postChangeProfilePic quietEnv stale (.text "data:image/png;base64,AAAA")).session
      ≠ none ∧
    (postChangeProfilePic quietEnv stale (.text "data:image/png;base64,AAAA")).calls
      = [.updateOne (some "ghost")] := by
  decide

/-! ## Register: the guards before the store -/

/-- C6, as amended.  For every collection that holds a user with username `u`, POST
/register with username `u` leaves the collection and the session unchanged and lets no
error out, whatever the two password fields are; when `u` and the password are not
empty, the password equals its confirmation and the lookup is not rejected, the reply
is the JSON error "Username u is already taken!". -/
theorem register_existing_username (bc : Bcrypt) (env : Env) (sv : Server) (body : Body)
    (u : String)
    (hexists : ∃ x ∈ sv.users, x.username = u)
    (hru : body.field "register_username" = .str u) :
    ((postRegister bc env sv body).users = sv.users ∧
      (postRegister bc env sv body).session = sv.session ∧
      (postRegister bc env sv body).escaped = none) ∧
    (∀ p : String, u ≠ "" → p ≠ "" →
      body.field "register_password" = .str p →
      body.field "register_confirm_password" = .str p →
      env.findFault = none →
      (postRegister bc env sv body).reply =
        some (.jsonError 200 ("Username " ++ u ++ " is already taken!"))) := by
  obtain ⟨y, hy⟩ := find_some_of_mem sv.users u hexists
  constructor
  · unfold postRegister
    simp only [hru]
    split_ifs
    · exact ⟨rfl, rfl, rfl⟩
    · exact ⟨rfl, rfl, rfl⟩
    · cases hf : env.findFault <;> simp [findOne, hf, hy, Server.send]
  · intro p hu hp hrp hrc hf
    simp [postRegister, hru, hrp, hrc, JSVal.truthy, JSVal.strictNe, hu, hp, findOne, hf, hy,
      JSVal.toStr, Server.send]

/-- Witness of C6 as amended: alice is registered a second time. -/
theorem register_existing_username_witness :
    (postRegister demoBcrypt quietEnv anonymous
      (.form [("register_username", .str "alice"), ("register_password", .str "pw"),
              ("register_confirm_password", .str "pw")])).users = [alice] ∧
    (postRegister demoBcrypt quietEnv anonymous
      (.form [("register_username", .str "alice"), ("register_password", .str "pw"),
              ("register_confirm_password", .str "pw")])).reply =
      some (.jsonError 200 "Username alice is already taken!") := by
  have h := register_existing_username demoBcrypt quietEnv anonymous
    (.form [("register_username", .str "alice"), ("register_password", .str "pw"),
            ("register_confirm_password", .str "pw")]) "alice"
    ⟨alice, by decide, rfl⟩ rfl
  exact ⟨h.1.1, h.2 "pw" (by decide) (by decide) rfl rfl rfl⟩

/-- C6, counterexample.  The username alice exists, yet with an empty password, or with
a password that differs from its confirmation, POST /register does not answer "Username
alice is already taken!": the guards on the body answer first. -/
theorem register_existing_username_other_reply :
    (∃ x ∈ anonymous.users, x.username = "alice") ∧
    (postRegister demoBcrypt quietEnv anonymous
      (.form [("register_username", .str "alice"), ("register_password", .str ""),
              ("register_confirm_password", .str "")])).reply =
      some (.jsonError 200 "Request body incomplete.") ∧
    (postRegister demoBcrypt quietEnv anonymous
      (.form [("register_username", .str "alice"), ("register_password", .str "pw"),
              ("register_confirm_password", .str "other")])).reply =
      some (.jsonError 200 "Password and Confirm Password Does not Match!") := by
  refine ⟨⟨alice, by decide, rfl⟩, ?_, ?_⟩ <;> decide

/-- C7. For every request body in which `register_password` differs from
`register_confirm_password`, whatever the username and whether or not a field is empty
or missing, POST /register answers with a validation error payload (the incomplete-body
error or the mismatch error), makes no call on the user model, lets no error out and
leaves the collection and the session unchanged. -/
theorem register_mismatch (bc : Bcrypt) (env : Env) (sv : Server) (body : Body)
    (hne : body.field "register_password" ≠ body.field "register_confirm_password") :
    ((postRegister bc env sv body).reply =
        some (.jsonError 200 "Request body incomplete.") ∨
      (postRegister bc env sv body).reply =
        some (.jsonError 200 "Password and Confirm Password Does not Match!")) ∧
    (postRegister bc env sv body).calls = [] ∧
    (postRegister bc env sv body).users = sv.users ∧
    (postRegister bc env sv body).session = sv.session ∧
    (postRegister bc env sv body).escaped = none := by
  have hs := strictNe_of_ne _ _ hne
  unfold postRegister
  simp only [hs]
  split_ifs
  · exact ⟨Or.inl rfl, rfl, rfl, rfl, rfl⟩
  · exact ⟨Or.inr rfl, rfl, rfl, rfl, rfl⟩

/-- Witness of C7: a confirmation that differs from the password. -/
theorem register_mismatch_witness :
    (postRegister demoBcrypt quietEnv anonymous
      (.form [("register_username", .str "bob"), ("register_password", .str "pw"),
              ("register_confirm_password", .str "other")])).calls = [] ∧
    (postRegister demoBcrypt quietEnv anonymous
      (.form [("register_username", .str "bob"), ("register_password", .str "pw"),
              ("register_confirm_password", .str "other")])).users = [alice] :=
  have h := register_mismatch demoBcrypt quietEnv anonymous
    (.form [("register_username", .str "bob"), ("register_password", .str "pw"),
            ("register_confirm_password", .str "other")]) (by decide)
  ⟨h.2.1, h.2.2.1⟩

/-! ## The profile mutations: validation -/

/-- C8, as amended.  For every session state, every collection and every environment,
POST /profile/changeStatus whose field `profile__chgStatus` has a length above 500 makes
no call on the user model, lets no error out and leaves the collection and the session
unchanged; the reply is the 400 error "New status too long. Do not exceed 500
characters" when the session is authenticated, and the 401 "Unauthorized" error when it
is not.  A field of length exactly 500 never gets the 400 error. -/
theorem changeStatus_too_long (env : Env) (sv : Server) (body atLimit : Body) (n : Nat)
    (hlen : (body.field "profile__chgStatus").length? = some n) (hn : 500 < n) :
    ((postChangeStatus env sv body).users = sv.users ∧
      (postChangeStatus env sv body).calls = [] ∧
      (postChangeStatus env sv body).session = sv.session ∧
      (postChangeStatus env sv body).escaped = none) ∧
    (sv.isAuth = true → (postChangeStatus env sv body).reply =
      some (.jsonError 400 "New status too long. Do not exceed 500 characters")) ∧
    (sv.isAuth = false → (postChangeStatus env sv body).reply =
      some (.jsonError 401 "Unauthorized. Please log in to fix this problem")) ∧
    ((atLimit.field "profile__chgStatus").length? = some 500 →
      (postChangeStatus env sv atLimit).reply ≠
        some (.jsonError 400 "New status too long. Do not exceed 500 characters")) := by
  refine ⟨?_, ?_, ?_, ?_⟩
  · cases hauth : sv.isAuth <;> simp [postChangeStatus, hauth, hlen, hn, Server.send]
  · intro hauth
    simp [postChangeStatus, hauth, hlen, hn, Server.send]
  · intro hauth
    simp [postChangeStatus, hauth, Server.send]
  · intro h500
    unfold postChangeStatus
    simp only [h500]
    repeat' split
    all_goals simp_all [Server.send]

/-- Witness of C8 as amended: the 501-character status on the session of alice, and the
500-character status. -/
theorem changeStatus_too_long_witness :
    (postChangeStatus quietEnv loggedIn
      (.form [("profile__chgStatus", .str longStatus)])).users = [alice] ∧
    (postChangeStatus quietEnv loggedIn
      (.form [("profile__chgStatus", .str longStatus)])).reply =
      some (.jsonError 400 "New status too long. Do not exceed 500 characters") ∧
    (postChangeStatus quietEnv loggedIn
      (.form [("profile__chgStatus", .str fullStatus)])).reply ≠
      some (.jsonError 400 "New status too long. Do not exceed 500 characters") := by
  have h := changeStatus_too_long quietEnv loggedIn
    (.form [("profile__chgStatus", .str longStatus)])
    (.form [("profile__chgStatus", .str fullStatus)]) 501
    (congrArg some (utf16Length_replicate 501)) (by decide)
  exact ⟨h.1.1, h.2.1 rfl, h.2.2.2 (congrArg some (utf16Length_replicate 500))⟩

/-- C8, counterexample.  With a session that is not authenticated the 501-character status
is not answered with the 400 validation error: the reply is the 401 "Unauthorized"
error. -/
theorem changeStatus_too_long_unauthorized :
    (JSVal.str longStatus).length? = some 501 ∧
    (postChangeStatus quietEnv anonymous
      (.form [("profile__chgStatus", .str longStatus)])).reply =
      some (.jsonError 401 "Unauthorized. Please log in to fix this problem") ∧
    (postChangeStatus quietEnv anonymous
      (.form [("profile__chgStatus", .str longStatus)])).reply ≠
      some (.jsonError 400 "New status too long. Do not exceed 500 characters") := by
  refine ⟨congrArg some (utf16Length_replicate 501), rfl, ?_⟩
  simp [postChangeStatus, anonymous, Server.isAuth, Server.send]

/-- C9, as amended.  For every session state, every collection and every string body
that does not begin with "data:image/" (the empty string included), POST
/profile/changeProfilePic makes no call on the user model, lets no error out and leaves
the collection (so the stored avatar) and the session unchanged; the reply is the 400
error "New profile picture is not a valid image!" when the session is authenticated,
and the 401 "Unauthorized" error when it is not. -/
theorem changeProfilePic_not_image (env : Env) (sv : Server) (imgData : String)
    (hnot : startsWithDataImage imgData = false) :
    ((postChangeProfilePic env sv (.text imgData)).users = sv.users ∧
      (postChangeProfilePic env sv (.text imgData)).calls = [] ∧
      (postChangeProfilePic env sv (.text imgData)).session = sv.session ∧
      (postChangeProfilePic env sv (.text imgData)).escaped = none) ∧
    (sv.isAuth = true → (postChangeProfilePic env sv (.text imgData)).reply =
      some (.jsonError 400 "New profile picture is not a valid image!")) ∧
    (sv.isAuth = false → (postChangeProfilePic env sv (.text imgData)).reply =
      some (.jsonError 401 "Unauthorized. Please log in to fix this problem")) := by
  refine ⟨?_, ?_, ?_⟩
  · cases hauth : sv.isAuth <;> simp [postChangeProfilePic, hauth, hnot, Server.send]
  · intro hauth
    simp [postChangeProfilePic, hauth, hnot, Server.send]
  · intro hauth
    simp [postChangeProfilePic, hauth, Server.send]

/-- Witness of C9 as amended: plain text and the empty string on the session of alice. -/
theorem changeProfilePic_not_image_witness :
    (postChangeProfilePic quietEnv loggedIn (.text "hello")).reply =
      some (.jsonError 400 "New profile picture is not a valid image!") ∧
    (postChangeProfilePic quietEnv loggedIn (.text "")).reply =
      some (.jsonError 400 "New profile picture is not a valid image!") ∧
    (postChangeProfilePic quietEnv loggedIn (.text "hello")).users = [alice] :=
  ⟨(changeProfilePic_not_image quietEnv loggedIn "hello" (by decide)).2.1 rfl,
   (changeProfilePic_not_image quietEnv loggedIn "" (by decide)).2.1 rfl,
   (changeProfilePic_not_image quietEnv loggedIn "hello" (by decide)).1.1⟩

/-- C9, counterexample.  The plain text "hello" on a session that is not authenticated is
answered with the 401 "Unauthorized" error, not with the 400 validation error; and a body
that was parsed into an object gets no reply at all on the session of alice, a
TypeError leaves the handler. -/
theorem changeProfilePic_not_image_other_reply :
    startsWithDataImage "hello" = false ∧
    (postChangeProfilePic quietEnv anonymous (.text "hello")).reply =
      some (.jsonError 401 "Unauthorized. Please log in to fix this problem") ∧
    (postChangeProfilePic quietEnv loggedIn (.form [])).reply = none ∧
    (postChangeProfilePic quietEnv loggedIn (.form [])).escaped =
      some (typeError "imgData.startsWith is not a function") := by
  decide

/-! ## Errors that leave a handler -/

/-- C10. The code at the failing inputs.  POST /register for a fresh username whose
insert is refused sends nothing and the error of `save()` leaves the handler; likewise
the TypeError of POST /profile/changeStatus without the field `profile__chgStatus`, the
TypeError of POST /profile/changeProfilePic with a body that is not a string, and the
error of `compareSync` in POST /login when the password field is repeated. -/
theorem errors_leave_the_handlers :
    postRegister demoBcrypt saveRejected anonymous
      (.form [("register_username", .str "bob"), ("register_password", .str "pw"),
              ("register_confirm_password", .str "pw")]) =
      { reply := none, escaped := some duplicateKeyError, session := none,
        users := [alice], calls := [.findOne (.str "bob"), .save "bob"] } ∧
    postChangeStatus quietEnv loggedIn (.form []) =
      { reply := none,
        escaped := some (typeError "Cannot read property length of undefined"),
        session := loggedIn.session, users := [alice], calls := [] } ∧
    postChangeProfilePic quietEnv loggedIn (.form []) =
      { reply := none, escaped := some (typeError "imgData.startsWith is not a function"),
        session := loggedIn.session, users := [alice], calls := [] } ∧
    postLogin demoBcrypt quietEnv anonymous
      (.form [("login_username", .str "alice"), ("login_password", .arr ["a", "b"])]) =
      { reply := none, escaped := some illegalArguments, session := none,
        users := [alice], calls := [.findOne (.str "alice")] } := by
  decide

end LoginSystem
